import Mathlib

/-!
Verification development for the lando.blog repository: a shallow embedding of
`src/components/ScrollTop/ScrollTopComp.jsx`, `src/theme.config.js`, and the
"Maps in Javascript" content page, together with theorems settling the spec's
claims about them.
-/

namespace LandoBlog

/-! ## Markup model

Rendered JSX markup is modelled as a tree of elements (tag, attributes,
children) and text nodes. -/

inductive Html where
  | elem (tag : String) (attrs : List (String × String)) (children : List Html)
  | text (s : String)

mutual

/-- The text fragments of a markup tree, in document order. -/
def Html.textFragments : Html → List String
  | Html.elem _ _ cs => Html.textFragmentsList cs
  | Html.text s => [s]

def Html.textFragmentsList : List Html → List String
  | [] => []
  | c :: cs => Html.textFragments c ++ Html.textFragmentsList cs

end

/-! ## `src/theme.config.js`

`const YEAR = new Date().getFullYear()` reads the system clock when the module
is evaluated; we model the clock reading as an explicit `Date` argument. -/

structure Date where
  year : Int
  month : Nat
  day : Nat

def Date.getFullYear (d : Date) : Int := d.year

/-- `const YEAR = new Date().getFullYear()` from `src/theme.config.js` line 1,
with the system clock passed explicitly. -/
def YEAR (now : Date) : Int := now.getFullYear

/-- The `footer:` JSX expression of `src/theme.config.js` lines 8-23:
`<footer><small><time>{YEAR}</time> © lando.<a href="/feed.xml">RSS</a></small>
<style jsx>…</style></footer>`. -/
def footerMarkup (year : Int) : Html :=
  Html.elem "footer" []
    [ Html.elem "small" []
        [ Html.elem "time" [] [Html.text (toString year)]
        , Html.text " © lando."
        , Html.elem "a" [("href", "/feed.xml")] [Html.text "RSS"] ]
    , Html.elem "style" [("jsx", "true")]
        [Html.text "footer \x7b margin-top: 8rem; \x7d a \x7b float: right; \x7d"] ]

/-- A value held by a site-configuration option. `navs` entries are
(name, url) pairs; the shipped list is empty so their shape is not exercised. -/
inductive ConfigValue where
  | str (s : Option String)
  | bool (b : Bool)
  | markup (h : Html)
  | navList (l : List (String × String))
  | obj (fields : List (String × ConfigValue))

/-- The default export of `src/theme.config.js`: an object literal with keys
`cusdis` (an object with the single key `appId`, read from the
`NEXT_PUBLIC_CUSDIS_APP_ID` environment variable, possibly undefined),
`darkMode: true`, `footer:` the JSX above, and `navs: []`. The clock date and
the environment variable are passed explicitly. -/
def themeConfig (now : Date) (cusdisAppId : Option String) :
    List (String × ConfigValue) :=
  [ ("cusdis", ConfigValue.obj [("appId", ConfigValue.str cusdisAppId)])
  , ("darkMode", ConfigValue.bool true)
  , ("footer", ConfigValue.markup (footerMarkup (YEAR now)))
  , ("navs", ConfigValue.navList []) ]

/-! ## `src/components/ScrollTop/ScrollTopComp.jsx` -/

/-- `useState(false)` on line 8: the initial value of the `visible` state. -/
def initialVisible : Bool := false

/-- `toggleVisible` (lines 10-17): reads
`document.documentElement.scrollTop`, sets `visible` to true when it is
strictly greater than 300, to false when it is ≤ 300, and otherwise (no branch
taken) leaves the state unchanged. Scroll offsets are modelled as integers. -/
def toggleVisible (visible : Bool) (scrolled : Int) : Bool :=
  if scrolled > 300 then true
  else if scrolled ≤ 300 then false
  else visible

/-- The `visible` state after the component processes a list of scroll events
(each carrying the scroll offset observed by the handler), starting from the
initial state. -/
def runScrollEvents (offsets : List Int) : Bool :=
  offsets.foldl toggleVisible initialVisible

inductive ScrollBehavior where
  | smooth
  | auto
deriving DecidableEq

structure ScrollRequest where
  top : Int
  behavior : ScrollBehavior
deriving DecidableEq

/-- `scrollToTop` (lines 19-24): calls
`window.scrollTo({ top: 0, behavior: 'smooth' })` once and returns nothing;
modelled as the list of scroll requests it issues. -/
def scrollToTop : List ScrollRequest := [⟨0, ScrollBehavior.smooth⟩]

/-- The rendered widget `div` (lines 28-35): its inline `display` style and the
scroll requests its `onClick` handler issues when clicked. -/
structure RenderedWidget where
  display : String
  onClick : List ScrollRequest

/-- The JSX returned by `ScrollTop` for a given `visible` state:
`style={{ display: visible ? 'inline' : 'none' }}` and
`onClick={scrollToTop}`. -/
def renderScrollTop (visible : Bool) : RenderedWidget :=
  ⟨if visible then "inline" else "none", scrollToTop⟩

/-- A DOM listener-registration call on the global `window` for the `scroll`
event. Each execution of the component body creates a fresh `toggleVisible`
closure, identified here by the index of the render that created it. -/
inductive DomCall where
  | addScrollListener (handlerId : Nat)
  | removeScrollListener (handlerId : Nat)
deriving DecidableEq

/-- The listener calls made by one execution of the `ScrollTop` function body:
line 26 runs `window.addEventListener('scroll', toggleVisible)` directly in the
body (not in a mount-only effect), registering the closure created by this
render. No other listener call appears in the body. -/
def renderBodyCalls (renderIdx : Nat) : List DomCall :=
  [DomCall.addScrollListener renderIdx]

/-- The listener calls made when the component unmounts: the source registers
no effect cleanup, so unmount makes none. -/
def unmountCalls : List DomCall := []

/-- The listener calls over a whole lifecycle of one mounted instance:
`nRenders` executions of the component body followed by unmount. -/
def lifecycleTrace (nRenders : Nat) : List DomCall :=
  (List.range nRenders).flatMap renderBodyCalls ++ unmountCalls

/-! ## Content page `src/unnamed/part_000` ("Maps in Javascript") -/

/-- The front-matter block of the content page (lines 1-7). -/
structure FrontMatter where
  title : String
  date : String
  description : String
  tag : String
  author : String

def mapsPostFrontMatter : FrontMatter :=
  ⟨"📍 Maps in Javascript: Converting Arrays of Objects"
  , "2022-06-26"
  , "Using Maps in Javascript to make object data lookup more efficient"
  , "web development, javascript, map, array, object"
  , "lando"⟩

/-- One entry of the page's `<Head>` element. -/
inductive HeadEntry where
  | meta (name : String) (content : String)
  | link (rel : String) (href : String)
  | title (text : String)
deriving DecidableEq

/-- The text content carried by a head entry. -/
def HeadEntry.contentText : HeadEntry → String
  | HeadEntry.meta _ c => c
  | HeadEntry.link _ h => h
  | HeadEntry.title t => t

/-- The `<Head>` element of the content page (lines 13-21), entry by entry. -/
def mapsPostHead : List HeadEntry :=
  [ HeadEntry.meta "title" "Maps in Javascript: Converting Arrays of Objects"
  , HeadEntry.meta "description"
      "Using Maps in Javascript to make object data lookup more efficient"
  , HeadEntry.meta "keywords" "web development, javascript, map, array, object"
  , HeadEntry.meta "og:description"
      "Using Maps in Javascript to make object data lookup more efficient"
  , HeadEntry.meta "og:title" "Maps in Javascript: Converting Arrays of Objects"
  , HeadEntry.link "canonical"
      "https://www.lando.blog/posts/javascript-convert-array-of-objects-to-map"
  , HeadEntry.title "Maps in Javascript: Converting Arrays of Objects - lando.blog" ]

/-- The text contents of all head entries of the content page. -/
def mapsPostHeadTexts : List String := mapsPostHead.map HeadEntry.contentText

/-! ## Theorems -/

/-- C1: for every scroll event, `toggleVisible` sets the visibility flag to
true exactly when the scroll offset is strictly greater than 300, to false
when it is ≤ 300, and to false at an offset of exactly 300, regardless of the
flag's prior value. -/
theorem toggleVisible_threshold (prev : Bool) (s : Int) :
    (toggleVisible prev s = true ↔ s > 300) ∧
    (toggleVisible prev s = false ↔ s ≤ 300) ∧
    toggleVisible prev 300 = false := by
  by_cases h : s > 300
  · simp [toggleVisible, h]
  · have h' : s ≤ 300 := by omega
    refine ⟨?_, ?_, ?_⟩ <;> simp [toggleVisible, h, h']

/-- C2: for any system clock date (and any environment), the footer markup in
the site configuration contains the current year as one of its text
fragments. -/
theorem footer_contains_current_year (now : Date) (cusdisAppId : Option String) :
    ∃ h, ("footer", ConfigValue.markup h) ∈ themeConfig now cusdisAppId ∧
      toString (YEAR now) ∈ h.textFragments := by
  refine ⟨footerMarkup (YEAR now), ?_, ?_⟩
  · simp [themeConfig]
  · simp [footerMarkup, Html.textFragments, Html.textFragmentsList]

/-- C3 counterexample: the front-matter `title` of the "Maps in Javascript"
page does not appear character-for-character in the rendered head: no head
entry's text equals it, and no head entry's text even contains its leading
"📍" character. -/
theorem mapsPost_title_not_verbatim_in_head :
    mapsPostFrontMatter.title ∉ mapsPostHeadTexts ∧
    ∀ e ∈ mapsPostHead, '📍' ∉ e.contentText.data := by
  decide

/-- C3 amended: the front-matter `description` and `tag` (keywords) fields
appear verbatim as head entry texts, while the `title` field appears with its
leading "📍 " prefix stripped: the head's title metas carry exactly the
front-matter title minus that prefix. -/
theorem mapsPost_metadata_in_head :
    mapsPostFrontMatter.description ∈ mapsPostHeadTexts ∧
    mapsPostFrontMatter.tag ∈ mapsPostHeadTexts ∧
    mapsPostFrontMatter.title =
      "📍 " ++ "Maps in Javascript: Converting Arrays of Objects" ∧
    HeadEntry.meta "title" "Maps in Javascript: Converting Arrays of Objects"
      ∈ mapsPostHead ∧
    HeadEntry.meta "og:title" "Maps in Javascript: Converting Arrays of Objects"
      ∈ mapsPostHead := by
  decide

/-- C4: when the widget is visible, its click handler issues exactly one
scroll request, to viewport offset 0 with smooth behavior. (The handler
returns no value and has no error branch; its embedding is the total function
`scrollToTop`, a plain list of requests.) -/
theorem widget_click_scrolls_to_top_once (visible : Bool) (hv : visible = true) :
    (renderScrollTop visible).onClick = [⟨0, ScrollBehavior.smooth⟩] ∧
    (renderScrollTop visible).onClick.length = 1 := by
  subst hv
  exact ⟨rfl, rfl⟩

/-- C4 witness: the click behavior evaluated at the concrete visible state. -/
theorem widget_click_scrolls_to_top_once_witness :
    (renderScrollTop true).onClick = [⟨0, ScrollBehavior.smooth⟩] ∧
    (renderScrollTop true).onClick.length = 1 :=
  widget_click_scrolls_to_top_once true rfl

/-- C5: the widget's visibility flag is a boolean initialized to false at
component creation: `useState(false)` yields `false`, and running the
component over an empty list of scroll events leaves the flag false. -/
theorem visible_initially_false :
    initialVisible = false ∧ runScrollEvents [] = false :=
  ⟨rfl, rfl⟩

/-- C6: over any lifecycle of the component (any number of renders followed by
unmount), no `removeEventListener` step ever occurs for the scroll listener,
while a scroll listener is registered as soon as the component has rendered
once. -/
theorem scroll_listener_never_removed (n handlerId : Nat) :
    DomCall.removeScrollListener handlerId ∉ lifecycleTrace n ∧
    DomCall.addScrollListener 0 ∈ lifecycleTrace (n + 1) := by
  constructor
  · intro hmem
    simp [lifecycleTrace, unmountCalls, renderBodyCalls] at hmem
  · simp [lifecycleTrace, unmountCalls, renderBodyCalls]

/-- C7: the exported site configuration exposes exactly the recognized
options, in order: `cusdis` as an object whose single field is `appId`,
`darkMode` holding a boolean, `footer` holding rendered markup, and `navs`
holding a list of navigation entries. -/
theorem themeConfig_exposes_recognized_options (now : Date)
    (cusdisAppId : Option String) :
    (themeConfig now cusdisAppId).map Prod.fst =
      ["cusdis", "darkMode", "footer", "navs"] ∧
    ("cusdis", ConfigValue.obj [("appId", ConfigValue.str cusdisAppId)])
      ∈ themeConfig now cusdisAppId ∧
    ("darkMode", ConfigValue.bool true) ∈ themeConfig now cusdisAppId ∧
    ("footer", ConfigValue.markup (footerMarkup (YEAR now)))
      ∈ themeConfig now cusdisAppId ∧
    ("navs", ConfigValue.navList []) ∈ themeConfig now cusdisAppId := by
  refine ⟨rfl, ?_, ?_, ?_, ?_⟩ <;> simp [themeConfig]

/-- C8: the scroll handler is history-independent and idempotent: the flag
after handling an offset does not depend on the prior flag value, and handling
the same offset twice yields the same flag as handling it once. -/
theorem toggleVisible_history_independent (p q : Bool) (s : Int) :
    toggleVisible p s = toggleVisible q s ∧
    toggleVisible (toggleVisible p s) s = toggleVisible p s := by
  by_cases h : s > 300
  · simp [toggleVisible, h]
  · have h' : s ≤ 300 := by omega
    simp [toggleVisible, h, h']

/-- C9: in the shipped configuration the `navs` list is empty: the `navs`
entry holds the empty navigation list, and any navigation list the `navs` key
maps to is empty. -/
theorem navs_empty (now : Date) (cusdisAppId : Option String) :
    ("navs", ConfigValue.navList []) ∈ themeConfig now cusdisAppId ∧
    ∀ l, ("navs", ConfigValue.navList l) ∈ themeConfig now cusdisAppId →
      l = [] := by
  constructor
  · simp [themeConfig]
  · intro l hl
    simp [themeConfig] at hl
    exact hl

/-- C10: the scroll listener is registered on every execution of the component
body: after n renders of a single mounted instance the trace consists of n
`addEventListener` calls, one per render, each registering the distinct
handler closure created by that render. -/
theorem listener_added_every_render (n : Nat) :
    lifecycleTrace n = (List.range n).map DomCall.addScrollListener ∧
    (lifecycleTrace n).length = n := by
  have h : ∀ l : List Nat,
      l.flatMap renderBodyCalls = l.map DomCall.addScrollListener := by
    intro l
    induction l with
    | nil => rfl
    | cons a t ih => simp [renderBodyCalls, ih]
  constructor
  · simp [lifecycleTrace, unmountCalls, h]
  · simp [lifecycleTrace, unmountCalls, h]

end LandoBlog
